import Mathlib

/-!
Shallow embedding of the subscription-entitlement engine
(`SubscriptionService`, src/unnamed/part_000).

Timestamps are modelled as integer epoch milliseconds (the source parses
ISO strings into `Date` objects and compares/computes on `getTime()` ms).
The subscription record store (supabase) is modelled explicitly: each
query returns a `{data, error}` pair; an insert/update either fails with
a `StoreError` or succeeds; the population is a list of rows.
Plan types and statuses are runtime strings in JS, so they are `String`
here; the source's `default` switch branches are reachable exactly as in
the running program.
-/

namespace SubscriptionService

/-- A store/postgrest error as surfaced to the service: a code (such as
`PGRST116`, the "no rows" outcome) and a message. -/
structure StoreError where
  code : String
  message : String
deriving Repr, DecidableEq

/-- The `Subscription` row (interface `Subscription` in the source). -/
structure Subscription where
  id : String
  user_id : String
  plan_type : String
  status : String
  stripe_subscription_id : Option String
  stripe_customer_id : Option String
  current_period_start : Int
  current_period_end : Int
  created_at : Int
  updated_at : Int
deriving Repr, DecidableEq

/-- The `PlanFeatures` value object. `-1` is the source's sentinel for an
unlimited ceiling. -/
structure PlanFeatures where
  maxCustomers : Int
  maxBranches : Int
  advancedAnalytics : Bool
  prioritySupport : Bool
  customBranding : Bool
  apiAccess : Bool
deriving Repr, DecidableEq

/-- `getTrialFeatures` (source lines 173-182). -/
def getTrialFeatures : PlanFeatures :=
  { maxCustomers := 100
    maxBranches := 1
    advancedAnalytics := false
    prioritySupport := false
    customBranding := false
    apiAccess := false }

/-- `getPlanFeatures` (source lines 153-171): `trial` maps to the trial
set; `monthly`/`semiannual`/`annual` share one branch in which custom
branding and API access are `planType !== 'monthly'`; any other string
falls through to the `default` branch and the trial set. -/
def getPlanFeatures (planType : String) : PlanFeatures :=
  match planType with
  | "trial" => getTrialFeatures
  | "monthly" | "semiannual" | "annual" =>
    { maxCustomers := -1
      maxBranches := -1
      advancedAnalytics := true
      prioritySupport := true
      customBranding := planType != "monthly"
      apiAccess := planType != "monthly" }
  | _ => getTrialFeatures

/-- The per-plan period length in milliseconds chosen by the `switch` in
`createSubscription` (source lines 38-53): 30 days for `trial` and
`monthly`, 180 for `semiannual`, 365 for `annual`, 30 on `default`. -/
def planDurationMs (planType : String) : Int :=
  match planType with
  | "trial" => 30 * 24 * 60 * 60 * 1000
  | "monthly" => 30 * 24 * 60 * 60 * 1000
  | "semiannual" => 180 * 24 * 60 * 60 * 1000
  | "annual" => 365 * 24 * 60 * 60 * 1000
  | _ => 30 * 24 * 60 * 60 * 1000

/-- The row handed to `supabase.from('subscriptions').insert(...)`
(source lines 57-65): id and audit timestamps are generated by the
store, so they are absent here. -/
structure InsertRow where
  user_id : String
  plan_type : String
  status : String
  stripe_subscription_id : Option String
  stripe_customer_id : Option String
  current_period_start : Int
  current_period_end : Int
deriving Repr, DecidableEq

/-- The insert payload built by `createSubscription` (source lines
34-65): `periodStart = now`, `periodEnd = now + duration(planType)`,
`status = 'active'`, processor references passed through verbatim. -/
def insertPayload (userId planType : String)
    (stripeSubscriptionId stripeCustomerId : Option String) (now : Int) :
    InsertRow :=
  { user_id := userId
    plan_type := planType
    status := "active"
    stripe_subscription_id := stripeSubscriptionId
    stripe_customer_id := stripeCustomerId
    current_period_start := now
    current_period_end := now + planDurationMs planType }

/-- `createSubscription` (source lines 26-75): builds the payload,
hands it to the store, and on `error` throws; the surrounding `catch`
logs and rethrows, so a store failure reaches the caller unchanged. -/
def createSubscription (storeInsert : InsertRow → Except StoreError Subscription)
    (userId planType : String)
    (stripeSubscriptionId stripeCustomerId : Option String) (now : Int) :
    Except StoreError Subscription :=
  match storeInsert
      (insertPayload userId planType stripeSubscriptionId stripeCustomerId now) with
  | .error e => .error e
  | .ok data => .ok data

/-- The `{data, error}` pair returned by the
`select.eq.order.limit(1).maybeSingle()` query in `getUserSubscription`
(source lines 79-85): `data` is the most recently created row for the
user, or `none`. -/
structure QueryResult where
  data : Option Subscription
  error : Option StoreError
deriving Repr, DecidableEq

/-- `getUserSubscription` (source lines 77-93): a hard store error
(`error.code !== 'PGRST116'`) is thrown, caught by the function's own
`catch`, logged, and turned into `null`; the benign "no rows" code
`PGRST116` and the no-error path just return `data`. The caller never
sees a failure. -/
def getUserSubscription (res : QueryResult) : Option Subscription :=
  match res.error with
  | some e => if e.code != "PGRST116" then none else res.data
  | none => res.data

/-- The row transformation performed by the store for
`update({status, updated_at}).eq('id', subscriptionId)` (source lines
100-106): every row whose id matches gets the new status and a fresh
`updated_at`; all other columns and rows are untouched. -/
def applyStatusUpdate (store : List Subscription)
    (subscriptionId status : String) (now : Int) : List Subscription :=
  store.map fun s =>
    if s.id = subscriptionId then
      { s with status := status, updated_at := now }
    else s

/-- `updateSubscriptionStatus` (source lines 95-113): on store `error`
it throws; the `catch` logs and rethrows, so the failure propagates. On
success the update is applied unconditionally (no transition matrix). -/
def updateSubscriptionStatus (store : List Subscription)
    (subscriptionId status : String) (now : Int)
    (storeError : Option StoreError) :
    Except StoreError (List Subscription) :=
  match storeError with
  | some e => .error e
  | none => .ok (applyStatusUpdate store subscriptionId status now)

/-- The milliseconds-per-day constant `1000 * 60 * 60 * 24` from source
line 135. -/
def msPerDay : Int := 1000 * 60 * 60 * 24

/-- `Math.ceil(diff / msPerDay)`: the exact ceiling of the division,
expressed with floor division (`-⌊-a/b⌋ = ⌈a/b⌉`). -/
def ceilDivDay (diff : Int) : Int := -((-diff).fdiv msPerDay)

/-- The access-decision record returned by `checkSubscriptionAccess`
(source lines 115-120). `daysRemaining` is an optional field in the
source (`daysRemaining?: number`) and is absent from the
no-subscription result, hence `Option Int`. -/
structure AccessDecision where
  hasAccess : Bool
  subscription : Option Subscription
  features : PlanFeatures
  daysRemaining : Option Int
deriving Repr, DecidableEq

/-- `checkSubscriptionAccess` (source lines 115-151): resolves the
user's subscription from the query result (a store failure inside the
lookup, or anything thrown under the `try`, lands in the `catch` and
yields the same object as the no-subscription branch); when a
subscription resolves, `hasAccess = status === 'active' && endDate >
now`, and `daysRemaining = Math.ceil((end - now) / msPerDay)` clamped
to 0 by `daysRemaining > 0 ? daysRemaining : 0`. Evaluation performs no
write: the resolved row is returned as-is. -/
def checkSubscriptionAccess (res : QueryResult) (now : Int) : AccessDecision :=
  match getUserSubscription res with
  | none =>
    { hasAccess := false
      subscription := none
      features := getTrialFeatures
      daysRemaining := none }
  | some subscription =>
    let endDate := subscription.current_period_end
    let hasAccess := subscription.status == "active" && decide (endDate > now)
    let daysRemaining := ceilDivDay (endDate - now)
    { hasAccess := hasAccess
      subscription := some subscription
      features := getPlanFeatures subscription.plan_type
      daysRemaining := some (if daysRemaining > 0 then daysRemaining else 0) }

/-- A row of the stats query `select('plan_type, status, created_at')`
(source lines 215-217). -/
structure StatRow where
  plan_type : String
  status : String
  created_at : Int
deriving Repr, DecidableEq

/-- The stats record returned by `getSubscriptionStats` (source lines
206-213). Revenue and churn are exact rationals standing for the
source's number arithmetic. -/
structure SubscriptionStats where
  total : Nat
  active : Nat
  trial : Nat
  paid : Nat
  revenue : ℚ
  churnRate : ℚ
deriving Repr, DecidableEq

/-- `getSubscriptionStats` (source lines 206-257): counts by filter
predicates, sums a flat per-plan price with a `reduce` from 0, guards
the churn division by `total > 0`, and returns the all-zero record when
the bulk read fails. -/
def getSubscriptionStats (res : Except StoreError (List StatRow)) :
    SubscriptionStats :=
  match res with
  | .error _ =>
    { total := 0, active := 0, trial := 0, paid := 0, revenue := 0, churnRate := 0 }
  | .ok subscriptions =>
    let total := subscriptions.length
    let active := (subscriptions.filter fun s => s.status == "active").length
    let trial := (subscriptions.filter fun s => s.plan_type == "trial").length
    let paid := (subscriptions.filter fun s => s.plan_type != "trial").length
    let revenue := subscriptions.foldl
      (fun sum sub =>
        if sub.plan_type == "monthly" then sum + 299/100
        else if sub.plan_type == "semiannual" then sum + 999/100
        else if sub.plan_type == "annual" then sum + 1999/100
        else sum)
      (0 : ℚ)
    let cancelled := (subscriptions.filter fun s => s.status == "cancelled").length
    let churnRate := if total > 0 then ((cancelled : ℚ) / (total : ℚ)) * 100 else 0
    { total := total, active := active, trial := trial, paid := paid
      revenue := revenue, churnRate := churnRate }

/-- `ceilDivDay` is the mathematical ceiling of the division by the
milliseconds-per-day constant. -/
lemma ceilDivDay_eq_ceil (diff : Int) :
    ceilDivDay diff = ⌈((diff : ℚ)) / ((msPerDay : ℤ) : ℚ)⌉ := by
  have hfloor : ⌈((diff : ℚ)) / ((msPerDay : ℤ) : ℚ)⌉
      = -⌊(((-diff : ℤ) : ℚ)) / (((86400000 : ℕ) : ℤ) : ℚ)⌋ := by
    rw [show ⌈((diff : ℚ)) / ((msPerDay : ℤ) : ℚ)⌉
        = -(-⌈((diff : ℚ)) / ((msPerDay : ℤ) : ℚ)⌉) by ring, ← Int.floor_neg]
    norm_num [msPerDay, neg_div]
  rw [hfloor]
  rw [show (((86400000 : ℕ) : ℤ) : ℚ) = (((86400000 : ℕ) : ℚ)) by push_cast; ring]
  rw [Rat.floor_intCast_div_natCast]
  unfold ceilDivDay msPerDay
  rw [Int.fdiv_eq_ediv _ (by norm_num)]
  norm_num

/-- C10: for every plan-type input, including unrecognized values, the
catalog's feature set grants custom branding exactly when it grants API
access. -/
theorem C10_customBranding_iff_apiAccess (planType : String) :
    (getPlanFeatures planType).customBranding = (getPlanFeatures planType).apiAccess := by
  unfold getPlanFeatures
  split <;> rfl

/-- C3: the plan catalog is total and returns the trial set for `trial`
(ceilings 100 and 1, all flags false), the monthly set for `monthly`
(unlimited ceilings via the `-1` sentinel, analytics and priority
support true, branding and API access false), the full paid set for
`semiannual` and `annual`, and falls back to the trial set on any
unrecognized identifier. -/
theorem C3_plan_catalog_feature_sets :
    getPlanFeatures "trial" =
      (⟨100, 1, false, false, false, false⟩ : PlanFeatures) ∧
    getPlanFeatures "monthly" =
      (⟨-1, -1, true, true, false, false⟩ : PlanFeatures) ∧
    getPlanFeatures "semiannual" =
      (⟨-1, -1, true, true, true, true⟩ : PlanFeatures) ∧
    getPlanFeatures "annual" =
      (⟨-1, -1, true, true, true, true⟩ : PlanFeatures) ∧
    (∀ p : String, p ≠ "trial" → p ≠ "monthly" → p ≠ "semiannual" →
      p ≠ "annual" → getPlanFeatures p = getTrialFeatures) := by
  refine ⟨by decide, by decide, by decide, by decide, ?_⟩
  intro p h1 h2 h3 h4
  unfold getPlanFeatures
  split <;> simp_all

/-- Witness for C3 at the concrete unrecognized identifier "business". -/
theorem C3_plan_catalog_feature_sets_witness :
    getPlanFeatures "business" = getTrialFeatures :=
  C3_plan_catalog_feature_sets.2.2.2.2 "business"
    (by decide) (by decide) (by decide) (by decide)

/-- C2: creation builds its insert payload with `periodStart = now`,
`status = active`, and `periodEnd = now + duration(planType)`, where the
duration is 30 days for `trial` and `monthly`, 180 for `semiannual`,
365 for `annual`, and 30 for any unrecognized identifier; hence
`periodEnd > periodStart` for every created subscription, and the
payload is exactly what `createSubscription` hands the store. -/
theorem C2_create_period_computation :
    (∀ userId planType ssid scid (now : Int),
      (insertPayload userId planType ssid scid now).current_period_start = now ∧
      (insertPayload userId planType ssid scid now).status = "active" ∧
      (insertPayload userId planType ssid scid now).current_period_end -
        (insertPayload userId planType ssid scid now).current_period_start =
          planDurationMs planType ∧
      (insertPayload userId planType ssid scid now).current_period_start <
        (insertPayload userId planType ssid scid now).current_period_end) ∧
    planDurationMs "trial" = 30 * msPerDay ∧
    planDurationMs "monthly" = 30 * msPerDay ∧
    planDurationMs "semiannual" = 180 * msPerDay ∧
    planDurationMs "annual" = 365 * msPerDay ∧
    (∀ p : String, p ≠ "trial" → p ≠ "monthly" → p ≠ "semiannual" →
      p ≠ "annual" → planDurationMs p = 30 * msPerDay) ∧
    (∀ storeInsert userId planType ssid scid (now : Int),
      createSubscription storeInsert userId planType ssid scid now =
        storeInsert (insertPayload userId planType ssid scid now)) := by
  have hpos : ∀ p : String, 0 < planDurationMs p := by
    intro p; unfold planDurationMs; split <;> norm_num
  refine ⟨?_, by decide, by decide, by decide, by decide, ?_, ?_⟩
  · intro userId planType ssid scid now
    refine ⟨rfl, rfl, by simp [insertPayload], ?_⟩
    have := hpos planType
    simp only [insertPayload]
    omega
  · intro p h1 h2 h3 h4
    unfold planDurationMs
    split <;> simp_all [msPerDay]
  · intro storeInsert userId planType ssid scid now
    unfold createSubscription
    cases h : storeInsert (insertPayload userId planType ssid scid now) <;> simp

/-- Witness for C2 at a concrete unrecognized plan identifier and a
concrete creation. -/
theorem C2_create_period_computation_witness :
    planDurationMs "business" = 30 * msPerDay ∧
    (insertPayload "u1" "annual" none none 1000).current_period_start = 1000 :=
  ⟨C2_create_period_computation.2.2.2.2.2.1 "business"
      (by decide) (by decide) (by decide) (by decide),
    (C2_create_period_computation.1 "u1" "annual" none none 1000).1⟩

/-- C1: whenever the lookup resolves a subscription, access is granted
exactly when the status is `active` and the period end lies strictly in
the future; the evaluation is pure and returns the resolved row
unchanged (in particular its status is not mutated). -/
theorem C1_hasAccess_iff_active_and_unexpired
    (res : QueryResult) (sub : Subscription) (now : Int)
    (h : getUserSubscription res = some sub) :
    ((checkSubscriptionAccess res now).hasAccess = true ↔
      (sub.status = "active" ∧ now < sub.current_period_end)) ∧
    (checkSubscriptionAccess res now).subscription = some sub := by
  unfold checkSubscriptionAccess
  rw [h]
  refine ⟨?_, rfl⟩
  simp [Bool.and_eq_true, beq_iff_eq, decide_eq_true_iff]

/-- Witness for C1: a cancelled subscription with a future period end is
denied access, and the row comes back unmutated. -/
theorem C1_hasAccess_iff_active_and_unexpired_witness :
    ((checkSubscriptionAccess
        ⟨some ⟨"s1", "u1", "monthly", "cancelled", none, none, 0, 86400000, 0, 0⟩,
          none⟩ 0).hasAccess = true ↔
      ((⟨"s1", "u1", "monthly", "cancelled", none, none, 0, 86400000, 0, 0⟩ :
          Subscription).status = "active" ∧
        (0 : Int) <
          (⟨"s1", "u1", "monthly", "cancelled", none, none, 0, 86400000, 0, 0⟩ :
            Subscription).current_period_end)) ∧
    (checkSubscriptionAccess
        ⟨some ⟨"s1", "u1", "monthly", "cancelled", none, none, 0, 86400000, 0, 0⟩,
          none⟩ 0).subscription =
      some ⟨"s1", "u1", "monthly", "cancelled", none, none, 0, 86400000, 0, 0⟩ :=
  C1_hasAccess_iff_active_and_unexpired
    ⟨some ⟨"s1", "u1", "monthly", "cancelled", none, none, 0, 86400000, 0, 0⟩, none⟩
    ⟨"s1", "u1", "monthly", "cancelled", none, none, 0, 86400000, 0, 0⟩ 0 rfl

/-- C4: evaluation always returns a decision. When no subscription
resolves it returns the no-access/trial-features result with no
subscription attached, and a hard store failure during the lookup
degrades to exactly the same result. -/
theorem C4_evaluation_total_and_degrades :
    (∀ res (now : Int), getUserSubscription res = none →
      checkSubscriptionAccess res now =
        (⟨false, none, getTrialFeatures, none⟩ : AccessDecision)) ∧
    (∀ res (now : Int) e, res.error = some e → e.code ≠ "PGRST116" →
      checkSubscriptionAccess res now =
        (⟨false, none, getTrialFeatures, none⟩ : AccessDecision)) := by
  have hnone : ∀ res (now : Int), getUserSubscription res = none →
      checkSubscriptionAccess res now =
        (⟨false, none, getTrialFeatures, none⟩ : AccessDecision) := by
    intro res now h
    unfold checkSubscriptionAccess
    rw [h]
  refine ⟨hnone, ?_⟩
  intro res now e he hcode
  apply hnone
  unfold getUserSubscription
  rw [he]
  simp [hcode]

/-- Witness for C4: a hard store error (code 500) and a clean empty
lookup both yield the no-subscription decision. -/
theorem C4_evaluation_total_and_degrades_witness :
    checkSubscriptionAccess ⟨none, some ⟨"500", "boom"⟩⟩ 7 =
      (⟨false, none, getTrialFeatures, none⟩ : AccessDecision) ∧
    checkSubscriptionAccess ⟨none, none⟩ 7 =
      (⟨false, none, getTrialFeatures, none⟩ : AccessDecision) :=
  ⟨C4_evaluation_total_and_degrades.2 ⟨none, some ⟨"500", "boom"⟩⟩ 7
      ⟨"500", "boom"⟩ rfl (by decide),
    C4_evaluation_total_and_degrades.1 ⟨none, none⟩ 7 rfl⟩

/-- C5: for every resolved subscription the returned `daysRemaining` is
the ceiling of `(periodEnd - now) / 1 day` clamped below at 0; it is
never negative; a period end ten days in the past yields 0; and an
active subscription ending exactly one day ahead yields access with one
day remaining. -/
theorem C5_daysRemaining_clamped_ceiling :
    (∀ res sub (now : Int), getUserSubscription res = some sub →
      (checkSubscriptionAccess res now).daysRemaining =
        some (max ⌈((sub.current_period_end - now : ℤ) : ℚ) /
          ((msPerDay : ℤ) : ℚ)⌉ 0)) ∧
    (∀ res sub (now : Int) d, getUserSubscription res = some sub →
      (checkSubscriptionAccess res now).daysRemaining = some d → 0 ≤ d) ∧
    (∀ res sub (now : Int), getUserSubscription res = some sub →
      sub.current_period_end = now - 10 * msPerDay →
      (checkSubscriptionAccess res now).daysRemaining = some 0) ∧
    (∀ res sub (now : Int), getUserSubscription res = some sub →
      sub.status = "active" → sub.current_period_end = now + msPerDay →
      (checkSubscriptionAccess res now).hasAccess = true ∧
      (checkSubscriptionAccess res now).daysRemaining = some 1) := by
  have hdays : ∀ res sub (now : Int), getUserSubscription res = some sub →
      (checkSubscriptionAccess res now).daysRemaining =
        some (if ceilDivDay (sub.current_period_end - now) > 0 then
          ceilDivDay (sub.current_period_end - now) else 0) := by
    intro res sub now h
    unfold checkSubscriptionAccess
    rw [h]
  refine ⟨?_, ?_, ?_, ?_⟩
  · intro res sub now h
    rw [hdays res sub now h, ← ceilDivDay_eq_ceil]
    congr 1
    rcases le_or_lt (ceilDivDay (sub.current_period_end - now)) 0 with hle | hlt
    · rw [if_neg (by omega)]
      omega
    · rw [if_pos hlt]
      omega
  · intro res sub now d h hd
    rw [hdays res sub now h] at hd
    have : (if ceilDivDay (sub.current_period_end - now) > 0 then
        ceilDivDay (sub.current_period_end - now) else 0) = d :=
      Option.some_injective _ hd
    split at this <;> omega
  · intro res sub now h he
    rw [hdays res sub now h, he]
    have h10 : now - 10 * msPerDay - now = -10 * msPerDay := by ring
    rw [h10]
    decide
  · intro res sub now h hs he
    constructor
    · unfold checkSubscriptionAccess
      rw [h]
      simp [hs, he, msPerDay]
    · rw [hdays res sub now h, he]
      have h1 : now + msPerDay - now = msPerDay := by ring
      rw [h1]
      decide

/-- Witness for C5 at concrete subscriptions: one ending a day ahead
(access granted, one day left) and one that ended ten days ago (zero
days left, not negative). -/
theorem C5_daysRemaining_clamped_ceiling_witness :
    (checkSubscriptionAccess
        ⟨some ⟨"s1", "u1", "annual", "active", none, none, 0, 86400000, 0, 0⟩,
          none⟩ 0).hasAccess = true ∧
    (checkSubscriptionAccess
        ⟨some ⟨"s1", "u1", "annual", "active", none, none, 0, 86400000, 0, 0⟩,
          none⟩ 0).daysRemaining = some 1 ∧
    (checkSubscriptionAccess
        ⟨some ⟨"s2", "u2", "trial", "active", none, none, -900000000, -864000000, 0, 0⟩,
          none⟩ 0).daysRemaining = some 0 ∧
    (0 : Int) ≤ 1 :=
  ⟨(C5_daysRemaining_clamped_ceiling.2.2.2
      ⟨some ⟨"s1", "u1", "annual", "active", none, none, 0, 86400000, 0, 0⟩, none⟩
      ⟨"s1", "u1", "annual", "active", none, none, 0, 86400000, 0, 0⟩ 0
      rfl rfl (by decide)).1,
    (C5_daysRemaining_clamped_ceiling.2.2.2
      ⟨some ⟨"s1", "u1", "annual", "active", none, none, 0, 86400000, 0, 0⟩, none⟩
      ⟨"s1", "u1", "annual", "active", none, none, 0, 86400000, 0, 0⟩ 0
      rfl rfl (by decide)).2,
    C5_daysRemaining_clamped_ceiling.2.2.1
      ⟨some ⟨"s2", "u2", "trial", "active", none, none, -900000000, -864000000, 0, 0⟩, none⟩
      ⟨"s2", "u2", "trial", "active", none, none, -900000000, -864000000, 0, 0⟩ 0
      rfl (by decide),
    C5_daysRemaining_clamped_ceiling.2.1
      ⟨some ⟨"s1", "u1", "annual", "active", none, none, 0, 86400000, 0, 0⟩, none⟩
      ⟨"s1", "u1", "annual", "active", none, none, 0, 86400000, 0, 0⟩ 0 1
      rfl (by decide)⟩

/-- The `reduce` accumulating the flat per-plan price starting from an
arbitrary accumulator equals the accumulator plus the sum of the
per-record price constants. -/
lemma revenue_foldl_eq_sum (rows : List StatRow) (init : ℚ) :
    rows.foldl
      (fun sum sub =>
        if sub.plan_type == "monthly" then sum + 299/100
        else if sub.plan_type == "semiannual" then sum + 999/100
        else if sub.plan_type == "annual" then sum + 1999/100
        else sum) init =
    init + (rows.map fun s =>
      if s.plan_type = "monthly" then (299/100 : ℚ)
      else if s.plan_type = "semiannual" then 999/100
      else if s.plan_type = "annual" then 1999/100
      else 0).sum := by
  induction rows generalizing init with
  | nil => simp
  | cons head tail ih =>
    rw [List.foldl_cons, ih, List.map_cons, List.sum_cons]
    simp only [beq_iff_eq]
    split_ifs <;> ring

/-- C6: the aggregator reports the population size, the counts of
`active` statuses, `trial` plans and non-`trial` plans, the sum of the
flat per-plan price constants (2.99 / 9.99 / 19.99, zero for trial), and
a churn percentage of `100 * cancelled / total` guarded to 0 on an empty
population; an empty population gives all zeros and a store failure
gives the zeroed record instead of an error. -/
theorem C6_stats_counts_revenue_churn :
    (∀ rows : List StatRow,
      (getSubscriptionStats (.ok rows)).total = rows.length ∧
      (getSubscriptionStats (.ok rows)).active =
        rows.countP (fun s => s.status == "active") ∧
      (getSubscriptionStats (.ok rows)).trial =
        rows.countP (fun s => s.plan_type == "trial") ∧
      (getSubscriptionStats (.ok rows)).paid =
        rows.countP (fun s => s.plan_type != "trial") ∧
      (getSubscriptionStats (.ok rows)).revenue =
        (rows.map fun s =>
          if s.plan_type = "monthly" then (299/100 : ℚ)
          else if s.plan_type = "semiannual" then 999/100
          else if s.plan_type = "annual" then 1999/100
          else 0).sum ∧
      (getSubscriptionStats (.ok rows)).churnRate =
        (if rows.length = 0 then 0
          else 100 * (rows.countP (fun s => s.status == "cancelled") : ℚ) /
            (rows.length : ℚ))) ∧
    getSubscriptionStats (.ok []) =
      (⟨0, 0, 0, 0, 0, 0⟩ : SubscriptionStats) ∧
    (∀ e, getSubscriptionStats (.error e) =
      (⟨0, 0, 0, 0, 0, 0⟩ : SubscriptionStats)) := by
  refine ⟨?_, by rfl, fun e => rfl⟩
  intro rows
  refine ⟨rfl, ?_, ?_, ?_, ?_, ?_⟩
  · simp [getSubscriptionStats, List.countP_eq_length_filter]
  · simp [getSubscriptionStats, List.countP_eq_length_filter]
  · simp [getSubscriptionStats, List.countP_eq_length_filter]
  · simpa [getSubscriptionStats] using revenue_foldl_eq_sum rows 0
  · simp only [getSubscriptionStats, List.countP_eq_length_filter]
    rcases Nat.eq_zero_or_pos rows.length with hz | hp
    · simp [hz]
    · rw [if_pos hp, if_neg (by omega)]
      ring

/-- C7: store failures split by operation kind: a failing insert makes
`createSubscription` return that error, a failing update makes
`updateSubscriptionStatus` return that error, while the read
`getUserSubscription` absorbs a hard store error and reports "no
subscription". -/
theorem C7_write_failures_propagate_read_failures_absorbed :
    (∀ storeInsert userId planType ssid scid (now : Int) e,
      storeInsert (insertPayload userId planType ssid scid now) =
        .error e →
      createSubscription storeInsert userId planType ssid scid now =
        .error e) ∧
    (∀ store subscriptionId newStatus (now : Int) e,
      updateSubscriptionStatus store subscriptionId newStatus now (some e) =
        .error e) ∧
    (∀ res e, res.error = some e → e.code ≠ "PGRST116" →
      getUserSubscription res = none) := by
  refine ⟨?_, fun _ _ _ _ _ => rfl, ?_⟩
  · intro storeInsert userId planType ssid scid now e he
    unfold createSubscription
    rw [he]
  · intro res e he hcode
    unfold getUserSubscription
    rw [he]
    simp [hcode]

/-- Witness for C7 at a concrete failing store and a concrete hard read
error. -/
theorem C7_write_failures_propagate_read_failures_absorbed_witness :
    createSubscription (fun _ => .error ⟨"500", "down"⟩) "u1" "monthly"
        none none 0 = .error ⟨"500", "down"⟩ ∧
    updateSubscriptionStatus [] "s1" "cancelled" 0 (some ⟨"500", "down"⟩) =
      .error ⟨"500", "down"⟩ ∧
    getUserSubscription ⟨none, some ⟨"500", "down"⟩⟩ = none :=
  ⟨C7_write_failures_propagate_read_failures_absorbed.1
      (fun _ => .error ⟨"500", "down"⟩) "u1" "monthly" none none 0
      ⟨"500", "down"⟩ rfl,
    C7_write_failures_propagate_read_failures_absorbed.2.1
      [] "s1" "cancelled" 0 ⟨"500", "down"⟩,
    C7_write_failures_propagate_read_failures_absorbed.2.2
      ⟨none, some ⟨"500", "down"⟩⟩ ⟨"500", "down"⟩ rfl (by decide)⟩

/-- C9: a successful status transition maps the store row-by-row: the
row with the matching id gets exactly the new status and a fresh
`updatedAt` — with no condition on its current status, i.e. no legality
matrix — and every other field of that row, and every other row, is
unchanged. -/
theorem C9_transition_unconditional_write_and_frame
    (store : List Subscription) (subscriptionId newStatus : String)
    (now : Int) (i : Nat) (h : i < store.length) :
    updateSubscriptionStatus store subscriptionId newStatus now none =
      .ok (applyStatusUpdate store subscriptionId newStatus now) ∧
    (applyStatusUpdate store subscriptionId newStatus now).length =
      store.length ∧
    ((applyStatusUpdate store subscriptionId newStatus now).get
        ⟨i, by simpa [applyStatusUpdate] using h⟩ =
      (if (store.get ⟨i, h⟩).id = subscriptionId then
        { store.get ⟨i, h⟩ with status := newStatus, updated_at := now }
      else store.get ⟨i, h⟩)) := by
  refine ⟨rfl, by simp [applyStatusUpdate], ?_⟩
  simp [applyStatusUpdate]

/-- Witness for C9 on a concrete two-row store: the matching `past_due`
row becomes `active` with a fresh `updatedAt` and untouched other
fields; the non-matching row is untouched. -/
theorem C9_transition_unconditional_write_and_frame_witness :
    (applyStatusUpdate
        [⟨"s1", "u1", "annual", "past_due", none, none, 0, 5, 1, 1⟩,
          ⟨"s2", "u2", "trial", "cancelled", none, none, 0, 5, 1, 1⟩]
        "s1" "active" 99).get ⟨0, by decide⟩ =
      ⟨"s1", "u1", "annual", "active", none, none, 0, 5, 1, 99⟩ := by
  have h := (C9_transition_unconditional_write_and_frame
    [⟨"s1", "u1", "annual", "past_due", none, none, 0, 5, 1, 1⟩,
      ⟨"s2", "u2", "trial", "cancelled", none, none, 0, 5, 1, 1⟩]
    "s1" "active" 99 0 (by decide)).2.2
  simpa using h

/-- C8 as stated is false on the code: the decision returned for a
tenant with no subscription record carries no remaining-days value at
all (the field is absent), rather than a value floored at zero. -/
theorem C8_counterexample_no_daysRemaining_without_subscription :
    (checkSubscriptionAccess ⟨none, none⟩ 0).daysRemaining = none ∧
    ¬ ∃ d : Int, (checkSubscriptionAccess ⟨none, none⟩ 0).daysRemaining =
      some d := by
  refine ⟨by decide, ?_⟩
  rintro ⟨d, hd⟩
  rw [show (checkSubscriptionAccess ⟨none, none⟩ 0).daysRemaining = none
    from by decide] at hd
  exact Option.noConfusion hd

/-- C8 amended: a decision for a resolved subscription always carries a
remaining-days value floored at zero, while the no-subscription (and
degraded-on-failure) decision omits the value entirely. -/
theorem C8_amended_daysRemaining_presence (res : QueryResult) (now : Int) :
    (∀ sub, getUserSubscription res = some sub →
      ∃ d : Int, (checkSubscriptionAccess res now).daysRemaining = some d ∧
        0 ≤ d) ∧
    (getUserSubscription res = none →
      (checkSubscriptionAccess res now).daysRemaining = none) := by
  constructor
  · intro sub h
    refine ⟨(if ceilDivDay (sub.current_period_end - now) > 0 then
      ceilDivDay (sub.current_period_end - now) else 0), ?_, ?_⟩
    · unfold checkSubscriptionAccess
      rw [h]
    · split <;> omega
  · intro h
    unfold checkSubscriptionAccess
    rw [h]

/-- Witness for the amended C8 at a resolved and an unresolved lookup. -/
theorem C8_amended_daysRemaining_presence_witness :
    (∃ d : Int,
      (checkSubscriptionAccess
          ⟨some ⟨"s1", "u1", "monthly", "active", none, none, 0, 86400000, 0, 0⟩,
            none⟩ 0).daysRemaining = some d ∧ 0 ≤ d) ∧
    (checkSubscriptionAccess ⟨none, none⟩ 0).daysRemaining = none :=
  ⟨(C8_amended_daysRemaining_presence
        ⟨some ⟨"s1", "u1", "monthly", "active", none, none, 0, 86400000, 0, 0⟩,
          none⟩ 0).1
      ⟨"s1", "u1", "monthly", "active", none, none, 0, 86400000, 0, 0⟩ rfl,
    (C8_amended_daysRemaining_presence ⟨none, none⟩ 0).2 rfl⟩

end SubscriptionService
